import Mathlib

/-!
Verification development for the Immortal HTTP/1.1 server library.

The definitions below are a shallow embedding of the library's core:
  * byte buffers are `List Nat` (one `Nat` per byte, values < 256 for real inputs);
  * Rust `&str` / `String` values are `List Char` (`Str` below), obtained from
    byte buffers through an explicit UTF-8 decoder mirroring `str::from_utf8`;
  * `HashMap` / `DashMap` values are association lists whose `insert` replaces
    the previous binding of the key;
  * `Instant` / `Duration` values are logical `Nat` timestamps, passed
    explicitly to every operation that reads the clock in the source;
  * UUIDs are `Nat` values, the nil UUID being `0`; fresh UUIDv4 values drawn
    from the CSPRNG are passed in as explicit parameters;
  * the lazily-populated caches of `Request` (headers, get, post, cookies,
    derived fields) are semantically transparent, so the lazy accessor methods
    are modelled as pure lookup functions over the parsed raw data;
  * the embedding follows the `threading` feature build described by the
    concurrency section of the specification, in which the opportunistic
    `prune` calls guarded by `cfg(not(feature = "threading"))` are compiled
    out; state-mutating methods return the updated state explicitly.
-/

set_option autoImplicit false

namespace Immortal

/-- Strings are modelled as lists of characters. -/
abbrev Str := List Char

/-- Shorthand turning a Lean string literal into the `Str` model. -/
def str (s : String) : Str := s.data

/-- Carriage return byte. -/
def bCR : Nat := 13

/-- Line feed byte. -/
def bLF : Nat := 10

/-! ## UTF-8 codec, mirroring `str::from_utf8` and `String::into_bytes`. -/

/-- True when the byte is a UTF-8 continuation byte `0x80..=0xBF`. -/
def isCont (b : Nat) : Bool := 0x80 ≤ b && b ≤ 0xBF

/-- Decode a byte buffer as UTF-8, as `str::from_utf8` does: reject overlong
forms, surrogate code points and code points above `0x10FFFF`. -/
def utf8Decode : List Nat → Option Str
  | [] => some []
  | b :: rest =>
    if b < 0x80 then
      match utf8Decode rest with
      | some s => some (Char.ofNat b :: s)
      | none => none
    else if 0xC2 ≤ b && b ≤ 0xDF then
      match rest with
      | c1 :: rest1 =>
        if isCont c1 then
          match utf8Decode rest1 with
          | some s => some (Char.ofNat ((b - 0xC0) * 64 + (c1 - 0x80)) :: s)
          | none => none
        else none
      | [] => none
    else if 0xE0 ≤ b && b ≤ 0xEF then
      match rest with
      | c1 :: c2 :: rest2 =>
        let lowOk :=
          if b = 0xE0 then 0xA0 ≤ c1 && c1 ≤ 0xBF
          else if b = 0xED then 0x80 ≤ c1 && c1 ≤ 0x9F
          else isCont c1
        if lowOk && isCont c2 then
          match utf8Decode rest2 with
          | some s =>
            some (Char.ofNat ((b - 0xE0) * 4096 + (c1 - 0x80) * 64 + (c2 - 0x80)) :: s)
          | none => none
        else none
      | _ => none
    else if 0xF0 ≤ b && b ≤ 0xF4 then
      match rest with
      | c1 :: c2 :: c3 :: rest3 =>
        let lowOk :=
          if b = 0xF0 then 0x90 ≤ c1 && c1 ≤ 0xBF
          else if b = 0xF4 then 0x80 ≤ c1 && c1 ≤ 0x8F
          else isCont c1
        if lowOk && isCont c2 && isCont c3 then
          match utf8Decode rest3 with
          | some s =>
            some (Char.ofNat ((b - 0xF0) * 262144 + (c1 - 0x80) * 4096 +
                  (c2 - 0x80) * 64 + (c3 - 0x80)) :: s)
          | none => none
        else none
      | _ => none
    else none

/-- Encode one character to UTF-8 bytes. -/
def utf8EncodeChar (c : Char) : List Nat :=
  let n := c.toNat
  if n < 0x80 then [n]
  else if n < 0x800 then [0xC0 + n / 64, 0x80 + n % 64]
  else if n < 0x10000 then [0xE0 + n / 4096, 0x80 + n / 64 % 64, 0x80 + n % 64]
  else [0xF0 + n / 262144, 0x80 + n / 4096 % 64, 0x80 + n / 64 % 64, 0x80 + n % 64]

/-- Encode a modelled string to its UTF-8 bytes. -/
def utf8Encode (s : Str) : List Nat := s.flatMap utf8EncodeChar

/-- Shorthand: the UTF-8 bytes of a Lean string literal. -/
def bytes (s : String) : List Nat := utf8Encode s.data

/-! ## Association lists standing in for `HashMap` / `DashMap`. -/

/-- First value bound to `k`, as `HashMap::get`. -/
def lookupA {α β : Type} [DecidableEq α] : List (α × β) → α → Option β
  | [], _ => none
  | (k, v) :: rest, k' => if k = k' then some v else lookupA rest k'

/-- Remove every binding of `k`, as `HashMap::remove`. -/
def eraseA {α β : Type} [DecidableEq α] (l : List (α × β)) (k : α) : List (α × β) :=
  l.filter (fun p => p.1 ≠ k)

/-- Bind `k` to `v`, replacing a previous binding, as `HashMap::insert`. -/
def insertA {α β : Type} [DecidableEq α] (l : List (α × β)) (k : α) (v : β) :
    List (α × β) :=
  (k, v) :: eraseA l k

theorem lookupA_insertA {α β : Type} [DecidableEq α] (l : List (α × β)) (k : α) (v : β) :
    lookupA (insertA l k v) k = some v := by
  simp [insertA, lookupA]

theorem lookupA_eraseA {α β : Type} [DecidableEq α] (l : List (α × β)) (k : α) :
    lookupA (eraseA l k) k = none := by
  induction l with
  | nil => rfl
  | cons p rest ih =>
    by_cases h : p.1 = k
    · simpa [eraseA, h] using ih
    · simpa [eraseA, lookupA, h] using ih

/-! ## Generic string helpers used by the embedding. -/

/-- `listStartsWith l p` is true when `p` is an initial segment of `l`. -/
def listStartsWith {α : Type} [DecidableEq α] : List α → List α → Bool
  | _, [] => true
  | [], _ :: _ => false
  | a :: l, b :: p => a = b && listStartsWith l p

/-- Index of the first occurrence of `pat` in `s` (`str::find` on ASCII data). -/
def findSub (s pat : Str) : Option Nat :=
  match s with
  | [] => if pat = [] then some 0 else none
  | _ :: rest =>
    if listStartsWith s pat then some 0
    else match findSub rest pat with
      | some i => some (i + 1)
      | none => none

/-- Split on every occurrence of CRLF, keeping empty pieces, as
`str::split("\r\n")` does. -/
def splitOnCrlf : Str → List Str
  | [] => [[]]
  | '\r' :: '\n' :: rest => [] :: splitOnCrlf rest
  | c :: rest =>
    match splitOnCrlf rest with
    | h :: t => (c :: h) :: t
    | [] => [[c]]

/-- Split a byte buffer on every byte equal to `sep`, keeping empty pieces, as
`slice::split` does. -/
def splitOnByte (sep : Nat) : List Nat → List (List Nat)
  | [] => [[]]
  | b :: rest =>
    if b = sep then [] :: splitOnByte sep rest
    else
      match splitOnByte sep rest with
      | h :: t => (b :: h) :: t
      | [] => [[b]]

/-- Drop trailing characters drawn from `cs`, as `str::trim_end_matches` with a
character-list pattern. -/
def trimEndMatches (cs : List Char) (s : Str) : Str :=
  ((s.reverse).dropWhile (fun c => c ∈ cs)).reverse

/-- Drop leading and trailing whitespace, as `str::trim`. -/
def trimStr (s : Str) : Str :=
  ((s.dropWhile Char.isWhitespace).reverse.dropWhile Char.isWhitespace).reverse

/-! ## `util.rs` -/

/-- Embedding of `util::is_param_name_valid`: non-empty, first char not a
digit, every char alphanumeric or `-` or `_`. -/
def is_param_name_valid (param : Str) : Bool :=
  match param with
  | [] => false
  | c0 :: _ =>
    !('0' ≤ c0 && c0 ≤ '9') &&
      param.all (fun c =>
        ('a' ≤ c && c ≤ 'z') || ('A' ≤ c && c ≤ 'Z') ||
        ('0' ≤ c && c ≤ '9') || c = '-' || c = '_')

/-- Index of the first occurrence of byte `by_` in `l`, or `0` when absent,
mirroring the `found_idx` loop of `util::split_once`. -/
def findByteIdx (l : List Nat) (by_ : Nat) : Nat :=
  match l.findIdx? (fun b => b = by_) with
  | some i => i
  | none => 0

/-- Embedding of `util::split_once` on byte buffers: split at the first
occurrence of `by_`; when the occurrence is absent or at index 0 the whole
buffer is returned, and an empty remainder is reported as `none`. -/
def split_once (to_split : List Nat) (by_ : Nat) : List Nat × Option (List Nat) :=
  let found_idx := findByteIdx to_split by_
  if found_idx = 0 then (to_split, none)
  else
    let item := to_split.take found_idx
    match to_split.drop (found_idx + 1) with
    | [] => (item, none)
    | rest => (item, some rest)

/-- State of `util::KVParser`: the length recorded by the last
`reset_pos_within_token` and the remaining characters. -/
structure KVCursor where
  len_remaining : Nat
  chars : Str
  deriving Repr, DecidableEq

/-- `KVParser::new`. -/
def KVCursor.mk' (input : Str) : KVCursor := ⟨input.length, input⟩

/-- `KVParser::pos_within_token`. -/
def KVCursor.pos (st : KVCursor) : Nat := st.len_remaining - st.chars.length

/-- `KVParser::reset_pos_within_token`. -/
def KVCursor.resetPos (st : KVCursor) : KVCursor := ⟨st.chars.length, st.chars⟩

/-- Characters remaining after `KVParser::consume_while p`: consume while the
head satisfies `p` (the EOF sentinel stops the loop at the end of input). -/
def consumeWhileL (p : Char → Bool) : Str → Str
  | [] => []
  | c :: rest => if p c then consumeWhileL p rest else c :: rest

/-- `KVParser::consume_while`. -/
def KVCursor.consumeWhile (st : KVCursor) (p : Char → Bool) : KVCursor :=
  ⟨st.len_remaining, consumeWhileL p st.chars⟩

/-- Identifier-start test of `KVParser::query_kv_pair` (note that `&` counts
as a start character in the source). -/
def queryIdStart (c : Char) : Bool :=
  c = '_' || c = '-' || c = '&' || ('a' ≤ c && c ≤ 'z') || ('A' ≤ c && c ≤ 'Z')

/-- Identifier-continue test of `KVParser::query_kv_pair`. -/
def queryIdContinue (c : Char) : Bool :=
  c = '_' || c = '-' || c = '&' || ('a' ≤ c && c ≤ 'z') || ('A' ≤ c && c ≤ 'Z') ||
    ('0' ≤ c && c ≤ '9')

/-- Embedding of `KVParser::query_kv_pair`, returning the parsed pair (if any)
together with the cursor state left behind for the next call.  Rust slice
accesses out of range would panic; the corresponding `take`/`drop` here clamp,
which is only reachable on inputs outside the claims under study. -/
def queryKvPair (st : KVCursor) : Option (Str × Str) × KVCursor :=
  if !(st.chars.all (fun c => c.toNat < 128)) then (none, st)
  else
    let iter := st.chars
    match st.chars with
    | [] => (none, st)
    | c1 :: rest =>
      let st1 : KVCursor := ⟨st.len_remaining, rest⟩
      if queryIdStart c1 then
        let st2 := st1.consumeWhile (fun c => queryIdContinue c && c ≠ '=')
        let key_len := st2.pos
        let key := iter.take key_len
        match st2.chars with
        | [] => (some (key, []), st2)
        | c2 :: rest2 =>
          let st3 : KVCursor := ⟨st2.len_remaining, rest2⟩
          if c2 = '=' then
            let st4 := st3.resetPos
            match st4.chars with
            | [] => (some (key, []), st4)
            | c3 :: rest3 =>
              let st5 : KVCursor := ⟨st4.len_remaining, rest3⟩
              if c3 ≠ '&' then
                let st6 := st5.consumeWhile (fun c => c ≠ '&')
                let val_len := st6.pos
                let st7 : KVCursor := ⟨st6.len_remaining, st6.chars.tail⟩
                let st8 := st7.resetPos
                (some (key, (iter.drop (key_len + 1)).take val_len), st8)
              else (some (key, []), st5)
          else (some (key, []), st3)
      else (none, st1)

/-- Iteration of `util::parse_parameters`: call `query_kv_pair` until it
yields `None`, inserting each pair.  Every successful call consumes at least
one character, so the fuel `input.length + 1` is never exhausted. -/
def parseParamsLoop : Nat → KVCursor → List (Str × Str) → List (Str × Str)
  | 0, _, acc => acc
  | fuel + 1, st, acc =>
    match queryKvPair st with
    | (none, _) => acc
    | (some (k, v), st') => parseParamsLoop fuel st' (insertA acc k v)

/-- Embedding of `util::parse_parameters` (the `Result` in the source is
always `Ok`, so the embedding returns the map directly). -/
def parse_parameters (to_parse : Str) : List (Str × Str) :=
  if to_parse = [] then []
  else parseParamsLoop (to_parse.length + 1) (KVCursor.mk' to_parse) []

/-! ## `request.rs` -/

/-- Embedding of `request::RequestError`.  `Utf8Error` payloads are opaque
diagnostic values in the source and are modelled by `Unit`. -/
inductive RequestError where
  | requestLineMalformed (parts : List (List Nat))
  | documentNotUtf8 (e : Unit)
  | documentMalformed (bs : List Nat)
  | methodNotUtf8 (e : Unit)
  | queryNotUtf8 (e : Unit)
  | protoNotUtf8 (e : Unit)
  | protoMalformed (bs : List Nat)
  | protoInvalid (bs : List Nat)
  | protoVersionNotUtf8 (e : Unit)
  | protoVersionInvalid (bs : List Nat)
  | headersNotUtf8 (e : Unit)
  | contentLengthDiscrepancy (expected got : Nat)
  | postParamsMalformed (bs : List Nat)
  deriving Repr, DecidableEq

/-- Embedding of `request::Request` after construction.  The lazily-filled
caches (`headers`, `get`, `post`, `cookies`, `host`, `user_agent`,
`content_type`, `content_length`) start empty in the source and are filled
transparently by the accessor methods, so they are omitted here and the
accessors are modelled as pure functions; `peer_addr` is out of scope. -/
structure Request where
  body : Option (List Nat)
  method : Str
  document : Str
  query_raw : Str
  protocol : Str
  version : Str
  header_raw_lines : List Str
  deriving Repr, DecidableEq

/-- Embedding of `Request::bad`, the `Default::default()` request used by the
server shell for fail states: every field empty. -/
def Request.bad : Request :=
  { body := none, method := [], document := [], query_raw := [], protocol := [],
    version := [], header_raw_lines := [] }

/-- Loop of `request::request_head_body_split`: scan for the first double
CRLF, returning the final `(crlf_count, crlf_start_idx)` pair. -/
def rhbsLoop : List Nat → Nat → Bool → Nat → Nat → Nat × Nat
  | [], _, _, cnt, start => (cnt, start)
  | b :: rest, idx, found_cr, cnt, start =>
    if cnt = 2 then (cnt, start)
    else if b = bCR then
      rhbsLoop rest (idx + 1) true cnt (if cnt = 0 then idx else start)
    else if found_cr && b = bLF then rhbsLoop rest (idx + 1) false (cnt + 1) start
    else rhbsLoop rest (idx + 1) false 0 0

/-- Embedding of `request::request_head_body_split`. -/
def request_head_body_split (to_split : List Nat) : List Nat × Option (List Nat) :=
  match rhbsLoop to_split 0 false 0 0 with
  | (cnt, start) =>
    if start = 0 then (to_split, none)
    else if cnt ≠ 2 then (to_split, none)
    else (to_split.take start, some (to_split.drop (start + 4)))

/-- Loop of `request::request_line_header_split`: scan for the first CRLF,
returning `(crlf_start_idx, found_cr, found_lf)`. -/
def rlhsLoop : List Nat → Nat → Bool → Nat → Nat × Bool × Bool
  | [], _, found_cr, start => (start, found_cr, false)
  | b :: rest, idx, found_cr, start =>
    if b = bCR then rlhsLoop rest (idx + 1) true idx
    else if found_cr && b = bLF then (start, found_cr, true)
    else rlhsLoop rest (idx + 1) false 0

/-- Trailing-CRLF stripper used by `request_line_header_split`
(`strip_suffix(b"\r\n")`). -/
def stripSuffixCrlf (l : List Nat) : Option (List Nat) :=
  if listStartsWith l.reverse [bLF, bCR] then some (l.take (l.length - 2)) else none

/-- Embedding of `request::request_line_header_split`. -/
def request_line_header_split (to_split : List Nat) : List Nat × Option (List Nat) :=
  match rlhsLoop to_split 0 false 0 with
  | (start, found_cr, found_lf) =>
    if start = 0 || !found_cr || !found_lf then
      match stripSuffixCrlf to_split with
      | none => (to_split, none)
      | some cleaned => (cleaned, none)
    else (to_split.take start, some (to_split.drop (start + 2)))

/-- Leading-CRLF stripping loop at the top of `Request::new`. -/
def stripLeadingCrlf : List Nat → List Nat
  | 13 :: 10 :: rest => stripLeadingCrlf rest
  | l => l

/-- Embedding of `Request::new` (the `peer_addr` argument is out of scope for
the embedding). -/
def Request.new (buf : List Nat) : Except RequestError Request :=
  match request_head_body_split buf with
  | (request_head, body) =>
    match request_line_header_split (stripLeadingCrlf request_head) with
    | (request_line, request_headers) =>
      match splitOnByte 32 request_line with
      | [m, d, p] =>
        match utf8Decode m with
        | none => .error (.methodNotUtf8 ())
        | some method =>
          match split_once d 63 with
          | (document_slice, query_slice) =>
            match utf8Decode document_slice with
            | none => .error (.documentNotUtf8 ())
            | some document =>
              if !listStartsWith document ['/'] then
                .error (.documentMalformed document_slice)
              else
                match query_slice.elim (some []) utf8Decode with
                | none => .error (.queryNotUtf8 ())
                | some query =>
                  match splitOnByte 47 p with
                  | [pr, ver] =>
                    match utf8Decode pr with
                    | none => .error (.protoNotUtf8 ())
                    | some protocol =>
                      if protocol ≠ str "HTTP" then
                        .error (.protoInvalid request_line)
                      else
                        match utf8Decode ver with
                        | none => .error (.protoVersionNotUtf8 ())
                        | some version0 =>
                          if trimEndMatches ['\r', '\n', '\x00'] version0 ≠ str "1.1" then
                            .error (.protoVersionInvalid request_line)
                          else
                            match utf8Decode (request_headers.getD []) with
                            | none => .error (.headersNotUtf8 ())
                            | some hs =>
                              .ok { body := body
                                    method := method
                                    document := document
                                    query_raw := query
                                    protocol := protocol
                                    version := trimEndMatches ['\r', '\n', '\x00'] version0
                                    header_raw_lines := splitOnCrlf hs }
                  | _ => .error (.protoMalformed p)
      | _ => .error (.requestLineMalformed (splitOnByte 32 request_line))

/-- Embedding of `Request::from_slice`. -/
def Request.from_slice (buf : List Nat) : Except RequestError Request :=
  Request.new buf

/-- Modelled from the spec: the function `parse_header`, called by
`Request::header` on a raw header line, is absent from the sources (only its
caller is present).  Per the specification, a header line is split on the
first `": "`; names with invalid characters or empty values are skipped
silently and the store keeps the original case. -/
def parseHeader (raw : Str) : Option (Str × Str) :=
  match findSub raw (str ": ") with
  | none => none
  | some idx =>
    let key := raw.take idx
    let value := raw.drop (idx + 2)
    if value = [] || !is_param_name_valid key then none
    else some (key, value)

/-- Embedding of `Request::header`: find the first raw header line whose name
(the segment before the first `": "`) equals `key` byte-for-byte, and return
its parsed value.  The `self.headers` cache only memoises results of this
search, so it is transparent to the result. -/
def Request.header (req : Request) (key : Str) : Option Str :=
  if req.header_raw_lines = [] then none
  else
    match req.header_raw_lines.find? (fun line =>
        match findSub line (str ": ") with
        | some idx => line.take idx = key
        | none => false) with
    | some raw =>
      match parseHeader raw with
      | some (_, value) => some value
      | none => none
    | none => none

/-- Embedding of `str::parse::<usize>`: optional leading `+`, then at least
one ASCII digit. -/
def parseUsize (s : Str) : Option Nat :=
  let digits := match s with
    | '+' :: rest => rest
    | _ => s
  if digits ≠ [] && digits.all (fun c => '0' ≤ c && c ≤ '9') then
    some (digits.foldl (fun acc c => acc * 10 + (c.toNat - 48)) 0)
  else none

/-- Embedding of `Request::content_length`: parse the `Content-Length` header
on demand (the cache is transparent). -/
def Request.content_length (req : Request) : Option Nat :=
  match req.header (str "Content-Length") with
  | some cl => parseUsize cl
  | none => none

/-- Embedding of `Request::get`: parse the raw query on demand and look the
key up (the cache is transparent; an empty parameter map yields `None`). -/
def Request.get (req : Request) (key : Str) : Option Str :=
  if req.query_raw = [] then none
  else
    let g := parse_parameters req.query_raw
    if g = [] then none
    else
      match g.find? (fun p => p.1 = key) with
      | some p => some p.2
      | none => none

/-! ## `cookie.rs` -/

/-- Embedding of `cookie::SameSite`. -/
inductive SameSite where
  | undefined
  | no
  | lax
  | strict
  deriving Repr, DecidableEq

/-- Embedding of `cookie::Cookie`. -/
structure Cookie where
  name : Str
  value : Str
  secure : Bool
  http_only : Bool
  same_site : SameSite
  domain : Str
  path : Str
  max_age : Int
  deriving Repr, DecidableEq

/-- Embedding of `Cookie::new`. -/
def Cookie.new : Cookie :=
  { name := [], value := [], secure := false, http_only := false,
    same_site := .undefined, domain := [], path := [], max_age := -1 }

/-- Embedding of `Cookie::to_string`. -/
def Cookie.toStr (c : Cookie) : Str :=
  c.name ++ ['='] ++ c.value ++
  (if c.secure then str "; Secure" else []) ++
  (if c.http_only then str "; HttpOnly" else []) ++
  (match c.same_site with
   | .undefined => []
   | .no => str "; SameSite=No"
   | .lax => str "; SameSite=Lax"
   | .strict => str "; SameSite=Strict") ++
  (if c.domain ≠ [] then str "; Domain=" ++ c.domain else []) ++
  (if c.path ≠ [] then str "; Path=" ++ c.path else []) ++
  (if 0 < c.max_age then str "; Max-Age=" ++ str (toString c.max_age) else [])

/-- State of the cookie parser: current parse state, emitted cookies, cookie
under construction, and the builder string. -/
structure CookieParseSt where
  inValue : Bool
  cookies : List Cookie
  cookie : Cookie
  builder : Str
  deriving Repr, DecidableEq

/-- Character step of `cookie::parse_cookies_state_transition`. -/
def cookieStepChar (st : CookieParseSt) (c : Char) : CookieParseSt :=
  if c = '=' then
    if !st.inValue then
      let b := trimStr st.builder
      if b ≠ [] && is_param_name_valid b then
        let (cookies, cookie) :=
          if st.cookie.name ≠ [] && st.cookie.value ≠ [] then
            (st.cookies ++ [st.cookie], Cookie.new)
          else (st.cookies, st.cookie)
        { inValue := true, cookies := cookies,
          cookie := { cookie with name := b }, builder := [] }
      else { st with builder := b }
    else { st with builder := st.builder ++ [c] }
  else { st with builder := st.builder ++ [c] }

/-- Embedding of `cookie::parse_cookies_state_transition` over one trimmed
component. -/
def cookieTransition (st : CookieParseSt) (component : Str) : CookieParseSt :=
  (trimStr component).foldl cookieStepChar st

/-- The value sanitiser of `cookie::parse_cookies_state_action`
(`replace(['"', '\\', ',', '\t', '\r', '\n', '\0'], "")`). -/
def sanitizeCookieValue (s : Str) : Str :=
  s.filter (fun c => !(c = '"' || c = '\\' || c = ',' || c = '\t' || c = '\r' ||
    c = '\n' || c = '\x00'))

/-- Embedding of `cookie::parse_cookies_state_action`. -/
def cookieAction (st : CookieParseSt) : CookieParseSt :=
  let b := trimStr st.builder
  let cookie := if st.inValue then { st.cookie with value := sanitizeCookieValue b }
    else st.cookie
  { inValue := false, cookies := st.cookies, cookie := cookie, builder := [] }

/-- Split on every `;`, as `str::split(';')`. -/
def splitOnChar (sep : Char) : Str → List Str
  | [] => [[]]
  | c :: rest =>
    if c = sep then [] :: splitOnChar sep rest
    else
      match splitOnChar sep rest with
      | h :: t => (c :: h) :: t
      | [] => [[c]]

/-- Embedding of `cookie::parse_cookies`. -/
def parse_cookies (raw_cookies : Str) : List Cookie :=
  if raw_cookies = [] then []
  else
    let st0 : CookieParseSt :=
      { inValue := false, cookies := [], cookie := Cookie.new, builder := [] }
    let st := (splitOnChar ';' raw_cookies).foldl
      (fun st component => cookieAction (cookieTransition st component)) st0
    let st := cookieAction st
    if st.cookie.name ≠ [] && st.cookie.value ≠ [] then st.cookies ++ [st.cookie]
    else st.cookies

/-- Embedding of `Request::cookie`: parse the `Cookie` header on demand and
find the first cookie with the given name (the cache is transparent). -/
def Request.cookie (req : Request) (key : Str) : Option Cookie :=
  if req.header_raw_lines = [] then none
  else
    match req.header (str "Cookie") with
    | some cookies_raw => (parse_cookies cookies_raw).find? (fun c => c.name = key)
    | none => none

/-! ## `session.rs`

Timestamps (`Instant`) are logical `Nat` values; `instant.elapsed()` at
logical time `now` is `now - instant` (truncated subtraction, as instants
never lie in the future).  UUIDs are `Nat` values with `0` as the nil UUID.
The embedding follows the `threading` feature build, in which the
opportunistic `prune` calls guarded by `cfg(not(feature = "threading"))`
inside the store operations are compiled out. -/

/-- Embedding of `session::Session`. -/
structure Session where
  data : List (Str × Str)
  created : Nat
  last_mutated : Nat
  last_accessed : Nat
  deriving Repr, DecidableEq

/-- Embedding of `Session::new` at logical time `now`. -/
def Session.new (now : Nat) : Session :=
  { data := [], created := now, last_mutated := now, last_accessed := now }

/-- Embedding of `session::SessionManager`. -/
structure SessionManager where
  is_enabled : Bool
  store : List (Nat × Session)
  session_duration : Nat
  inactive_duration : Nat
  prune_rate : Nat
  last_prune : Nat
  deriving Repr, DecidableEq

/-- Embedding of `SessionManager::new` (the `last_prune` field is initialised
to the construction instant). -/
def SessionManager.new (session_duration inactive_duration prune_rate now : Nat) :
    SessionManager :=
  { is_enabled := false, store := [], session_duration := session_duration,
    inactive_duration := inactive_duration, prune_rate := prune_rate,
    last_prune := now }

/-- Embedding of `SessionManager::default` (12 h, 1 h, 1 min, in seconds). -/
def SessionManager.default : SessionManager :=
  SessionManager.new (12 * 3600) 3600 60 0

/-- Embedding of `SessionManager::enable`. -/
def SessionManager.enable (sm : SessionManager) : SessionManager :=
  { sm with is_enabled := true }

/-- Embedding of `SessionManager::disable`: disable and clear the store. -/
def SessionManager.disable (sm : SessionManager) : SessionManager :=
  { sm with is_enabled := false, store := [] }

/-- Embedding of `SessionManager::write_session` at logical time `now`;
returns the updated manager and the boolean result. -/
def SessionManager.write_session (sm : SessionManager) (session_id : Nat)
    (key value : Str) (now : Nat) : SessionManager × Bool :=
  if !sm.is_enabled then (sm, false)
  else if session_id = 0 then (sm, false)
  else
    match lookupA sm.store session_id with
    | some session =>
      let data := if value = [] then eraseA session.data key
        else insertA session.data key value
      let session' : Session :=
        { data := data, created := session.created, last_mutated := now,
          last_accessed := now }
      ({ sm with store := insertA sm.store session_id session' }, true)
    | none => (sm, false)

/-- Embedding of `SessionManager::read_session` at logical time `now`;
returns the updated manager (the touched `last_accessed`) and the value. -/
def SessionManager.read_session (sm : SessionManager) (session_id : Nat)
    (key : Str) (now : Nat) : SessionManager × Option Str :=
  if !sm.is_enabled then (sm, none)
  else if session_id = 0 then (sm, none)
  else
    match lookupA sm.store session_id with
    | some session =>
      let session' := { session with last_accessed := now }
      ({ sm with store := insertA sm.store session_id session' },
        lookupA session.data key)
    | none => (sm, none)

/-- Embedding of `SessionManager::delete_session`. -/
def SessionManager.delete_session (sm : SessionManager) (session_id : Nat) :
    SessionManager :=
  if !sm.is_enabled then sm
  else if session_id = 0 then sm
  else { sm with store := eraseA sm.store session_id }

/-- Embedding of `SessionManager::session_exists`. -/
def SessionManager.session_exists (sm : SessionManager) (session_id : Nat) : Bool :=
  if !sm.is_enabled then false
  else if session_id = 0 then false
  else (lookupA sm.store session_id).isSome

/-- Embedding of `SessionManager::add_session` at logical time `now`. -/
def SessionManager.add_session (sm : SessionManager) (session_id : Nat)
    (now : Nat) : SessionManager × Bool :=
  if !sm.is_enabled then (sm, false)
  else if session_id = 0 then (sm, false)
  else if (lookupA sm.store session_id).isSome then (sm, false)
  else ({ sm with store := insertA sm.store session_id (Session.new now) }, true)

/-- Removal predicate of the prune sweep: the session is expired by the idle
TTL or by the absolute TTL at logical time `now`. -/
def pruneExpired (sm : SessionManager) (now : Nat) (p : Nat × Session) : Bool :=
  decide (sm.inactive_duration ≤ now - p.2.last_accessed) ||
    decide (sm.session_duration ≤ now - p.2.created)

/-- Embedding of `SessionManager::prune` at logical time `now`: a no-op while
`now - last_prune < prune_rate`, otherwise a full sweep removing every
expired session and recording the sweep time. -/
def SessionManager.prune (sm : SessionManager) (now : Nat) : SessionManager :=
  if now - sm.last_prune < sm.prune_rate then sm
  else
    { sm with
      last_prune := now
      store := sm.store.filter (fun p => !pruneExpired sm now p) }

/-! ## UUID helpers (modelled from the `uuid` crate interface)

`Uuid` values are `Nat` numbers below `2^128`; `Uuid::nil()` is `0`. -/

/-- Lowercase hex digit. -/
def hexDigitChar (n : Nat) : Char :=
  if n < 10 then Char.ofNat (48 + n) else Char.ofNat (87 + n)

/-- Hex rendering of `n` padded to `width` digits. -/
def toHexPad (n width : Nat) : Str :=
  match width with
  | 0 => []
  | w + 1 => toHexPad (n / 16) w ++ [hexDigitChar (n % 16)]

/-- Modelled from the spec: `Uuid::to_string`, the canonical hyphenated
`8-4-4-4-12` lowercase hex form of the 128-bit value. -/
def uuidToStr (u : Nat) : Str :=
  toHexPad (u / 2 ^ 96) 8 ++ ['-'] ++ toHexPad (u / 2 ^ 80 % 2 ^ 16) 4 ++ ['-'] ++
    toHexPad (u / 2 ^ 64 % 2 ^ 16) 4 ++ ['-'] ++ toHexPad (u / 2 ^ 48 % 2 ^ 16) 4 ++
    ['-'] ++ toHexPad (u % 2 ^ 48) 12

/-- Hex value of one character, if any. -/
def hexVal (c : Char) : Option Nat :=
  if '0' ≤ c && c ≤ '9' then some (c.toNat - 48)
  else if 'a' ≤ c && c ≤ 'f' then some (c.toNat - 87)
  else if 'A' ≤ c && c ≤ 'F' then some (c.toNat - 55)
  else none

/-- Hex string to number, failing on non-hex characters. -/
def hexToNat : Str → Option Nat
  | [] => some 0
  | c :: rest =>
    match hexVal c, hexToNat rest with
    | some d, some n => some (d * 16 ^ rest.length + n)
    | _, _ => none

/-- Modelled from the spec: `str::parse::<Uuid>` on the canonical hyphenated
form (the only form the library itself emits). -/
def parseUuid (s : Str) : Option Nat :=
  match splitOnChar '-' s with
  | [a, b, c, d, e] =>
    if a.length = 8 && b.length = 4 && c.length = 4 && d.length = 4 &&
        e.length = 12 then
      match hexToNat a, hexToNat b, hexToNat c, hexToNat d, hexToNat e with
      | some va, some vb, some vc, some vd, some ve =>
        some ((((va * 2 ^ 16 + vb) * 2 ^ 16 + vc) * 2 ^ 16 + vd) * 2 ^ 48 + ve)
      | _, _, _, _, _ => none
    else none
  | _ => none

/-! ## `response.rs` -/

/-- Embedding of the `STATUSES` table. -/
def STATUSES : List (Str × Str) :=
  [ (str "200", str "OK"),
    (str "301", str "MOVED PERMANENTLY"),
    (str "302", str "FOUND"),
    (str "308", str "PERMANENT REDIRECT"),
    (str "400", str "BAD REQUEST"),
    (str "401", str "UNAUTHORIZED"),
    (str "403", str "FORBIDDEN"),
    (str "404", str "NOT FOUND"),
    (str "411", str "LENGTH REQUIRED"),
    (str "413", str "PAYLOAD TOO LARGE"),
    (str "414", str "URI TOO LONG"),
    (str "418", str "I AM A TEAPOT"),
    (str "426", str "UPGRADE REQUIRED"),
    (str "451", str "UNAVAILABLE FOR LEGAL REASONS"),
    (str "500", str "INTERNAL SERVER ERROR"),
    (str "501", str "NOT IMPLEMENTED"),
    (str "505", str "HTTP VERSION NOT SUPPORTED") ]

/-- Embedding of `response::Response`. -/
structure Response where
  body : List Nat
  code : Str
  status : Str
  protocol : Str
  method : Str
  headers : List (Str × Str)
  cookies : List Cookie
  deriving Repr, DecidableEq

/-- Embedding of `Response::bad`. -/
def Response.bad : Response :=
  { body := []
    code := str "400"
    status := str "BAD REQUEST"
    protocol := str "HTTP/1.1"
    method := str "GET"
    headers := insertA (insertA [] (str "Connection") (str "close"))
      (str "Content-Type") (str "text/html")
    cookies := [] }

/-- Embedding of `Response::new`: build the default response for a parsed
request, resolving or minting the session id.  `freshId` stands for the value
drawn from the CSPRNG by `SessionManager::generate_id`, and `now` is the
logical time of the `Session::new` instant; the updated session id and
manager are returned alongside the response, mirroring the `&mut` parameters
of the source. -/
def Response.new (req : Request) (sm : SessionManager) (session_id : Nat)
    (freshId : Nat) (now : Nat) : Response × Nat × SessionManager :=
  let headers := insertA (insertA [] (str "Connection") (str "close"))
    (str "Content-Type") (str "text/html")
  let session_id :=
    if sm.is_enabled then
      match req.cookie (str "id") with
      | some cookie =>
        match parseUuid cookie.value with
        | some id => id
        | none => session_id
      | none => session_id
    else session_id
  let (sm, added) :=
    if sm.is_enabled then sm.add_session session_id now else (sm, false)
  let sm_should_gen_id := sm.is_enabled && !added && !(sm.session_exists session_id)
  let (session_id, should_add_cookie) :=
    if sm_should_gen_id then (freshId, true) else (session_id, false)
  let cookies :=
    if sm.is_enabled && should_add_cookie && session_id ≠ 0 then
      [{ Cookie.new with
          name := str "id"
          value := uuidToStr session_id
          http_only := true }]
    else []
  ({ body := []
     code := str "200"
     status := str "OK"
     protocol := str "HTTP/1.1"
     method := req.method
     headers := headers
     cookies := cookies }, session_id, sm)

/-- Embedding of `Response::header`. -/
def Response.header (r : Response) (key : Str) : Option Str :=
  lookupA r.headers key

/-- Embedding of `Response::is_redirect` (and of the free `util::is_redirect`
the middleware imports, which is textually identical in the sources): the
code starts with `3` and a `Location` header is present. -/
def Response.is_redirect (r : Response) : Bool :=
  listStartsWith r.code ['3'] && (r.header (str "Location")).isSome

/-- The phrase looked up for the promoted `500` code (`INTERNAL SERVER
ERROR`, with the same literal fallback the source writes). -/
def resolved500 : Str :=
  match lookupA STATUSES (str "500") with
  | none => str "INTERNAL SERVER ERROR"
  | some t => t

/-- Status resolution and `500` promotion at the top of
`Response::serialize`: resolve the phrase from `STATUSES`, and when the code
is unmapped with no explicit status, promote to `500` with an HTML body. -/
def Response.resolve (r : Response) : Response :=
  match (match lookupA STATUSES r.code with
         | none => r.status
         | some t => t) with
  | [] =>
    { r with
      code := str "500"
      status := resolved500
      headers := insertA r.headers (str "Content-Type") (str "text/html")
      body := utf8Encode (str "<h1>500: " ++ resolved500 ++ str "</h1>") }
  | c :: cs => { r with status := c :: cs }

/-- Join with `"; "`, as the `intersperse`/`reduce` chain in
`Response::serialize`. -/
def joinSemicolon : List Str → Str
  | [] => []
  | [s] => s
  | s :: rest => s ++ str "; " ++ joinSemicolon rest

/-- Header emission loop of `Response::serialize`: emit `key: value` lines,
skipping empty keys.  The iteration order of the source `HashMap` is
unspecified; the embedding iterates the association list in order. -/
def emitHeaders (headers : List (Str × Str)) : List Nat :=
  headers.flatMap (fun p =>
    if p.1 = [] then [] else utf8Encode (p.1 ++ str ": " ++ p.2 ++ str "\r\n"))

/-- Bytes of the `Content-Length` trailer emitted for non-`HEAD` responses. -/
def clBytes (n : Nat) : List Nat :=
  utf8Encode (str "Content-Length: " ++ str (Nat.repr n) ++ str "\r\n\r\n")

/-- Status line and header section emitted by `Response::serialize` (on the
already-resolved response): the status line, then every header after the
`Set-Cookie` join (when cookies are present) and the `Date` stamp. -/
def serializeHeaders (r : Response) (date : Str) : List Nat :=
  utf8Encode (r.protocol ++ [' '] ++ r.code ++ [' '] ++ r.status ++ str "\r\n") ++
    emitHeaders (insertA
      (if r.cookies = [] then r.headers
       else insertA r.headers (str "Set-Cookie")
        (joinSemicolon (r.cookies.map Cookie.toStr)))
      (str "Date") date)

/-- Content section emitted by `Response::serialize` (on the
already-resolved response): `Content-Length` and the body for non-`HEAD`
methods, `Content-Length: 0` and no body for `HEAD`. -/
def serializeTail (r : Response) : List Nat :=
  if r.method ≠ str "HEAD" then clBytes r.body.length ++ r.body
  else bytes "Content-Length: 0\r\n\r\n"

/-- Embedding of `Response::serialize`.  The `Date` header is stamped from
the wall clock in the source; the formatted date string is passed in as
`date`. -/
def Response.serialize (r0 : Response) (date : Str) : List Nat :=
  serializeHeaders r0.resolve date ++ serializeTail r0.resolve

/-! ## `context.rs`, `router.rs`, `middleware.rs`

The per-request `Context` owns the request, the response under construction,
the resolved session id and the shared session manager; handlers
(`fn(&mut Context)`) are modelled as state transformers on it. -/

/-- Embedding of `context::Context`. -/
structure Ctx where
  request : Request
  response : Response
  session_id : Nat
  session_manager : SessionManager
  deriving Repr, DecidableEq

/-- Embedding of `router::Handler` (`fn(&mut Context)`). -/
def Handler : Type := Ctx → Ctx

/-- Embedding of `Context::redirect`: set code `302` and the `Location`
header. -/
def Ctx.redirect (ctx : Ctx) (location : Str) : Ctx :=
  { ctx with
    response :=
      { ctx.response with
        code := str "302"
        headers := insertA ctx.response.headers (str "Location") location } }

/-- Embedding of `router::Router`. -/
structure Router where
  fallback : Handler
  routes : List (Str × List (Str × Handler))

/-- Embedding of `router::not_implemented`, the default fallback. -/
def not_implemented (ctx : Ctx) : Ctx :=
  { ctx with
    response :=
      { ctx.response with
        code := str "501"
        body := bytes "<h1>501: Not Implemented</h1>" } }

/-- Embedding of `Router::new`. -/
def Router.new : Router := { fallback := not_implemented, routes := [] }

/-- Embedding of `Router::register`: make sure the method table exists, then
insert the route, returning `true`; the `None` arm of the source `get_mut`
(unreachable after the preceding insert) returns `false`. -/
def Router.register (r : Router) (method route : Str) (func : Handler) :
    Router × Bool :=
  let routes :=
    if (lookupA r.routes method).isSome then r.routes
    else insertA r.routes method []
  match lookupA routes method with
  | none => ({ r with routes := routes }, false)
  | some inner =>
    ({ r with routes := insertA routes method (insertA inner route func) }, true)

/-- Embedding of `Router::unregister`. -/
def Router.unregister (r : Router) (method route : Str) : Router × Bool :=
  match lookupA r.routes method with
  | none => (r, false)
  | some inner =>
    ({ r with routes := insertA r.routes method (eraseA inner route) },
      (lookupA inner route).isSome)

/-- The handler registered for `(method, route)`, if any. -/
def Router.lookupRoute (r : Router) (method route : Str) : Option Handler :=
  match lookupA r.routes method with
  | none => none
  | some inner => lookupA inner route

/-- Embedding of `Router::call`: return untouched when the response is
already a redirect, dispatch on `(method, document)`, and fall back on a
miss. -/
def Router.call (r : Router) (ctx : Ctx) : Ctx :=
  let method := ctx.request.method
  let document := ctx.request.document
  if ctx.response.is_redirect then ctx
  else
    match lookupA r.routes method with
    | none => r.fallback ctx
    | some by_method =>
      match lookupA by_method document with
      | none => r.fallback ctx
      | some func => func ctx

/-- Embedding of `Middleware::run` over the registered handler list: before
each handler, stop if the response is a redirect. -/
def Middleware.run : List Handler → Ctx → Ctx
  | [], ctx => ctx
  | func :: rest, ctx =>
    if ctx.response.is_redirect then ctx
    else Middleware.run rest (func ctx)

/-! ## `lib.rs` -/

/-- Embedding of the `Immortal` server value (named `Server` here to avoid
clashing with the namespace; the spec's API surface likewise calls it the
`Server`). -/
structure Server where
  middleware : List Handler
  router : Router
  session_manager : SessionManager

/-- Embedding of `Immortal::new`. -/
def Server.new : Server :=
  { middleware := [], router := Router.new,
    session_manager := SessionManager.default }

/-- Embedding of `Immortal::register`, forwarding to the router. -/
def Server.register (imm : Server) (method route : Str) (func : Handler) :
    Server × Bool :=
  match imm.router.register method route func with
  | (router, ok) => ({ imm with router := router }, ok)

/-- Embedding of `Immortal::add_middleware`. -/
def Server.add_middleware (imm : Server) (func : Handler) : Server :=
  { imm with middleware := imm.middleware ++ [func] }

/-- The request pipeline shared by `handle_connection` and
`Immortal::process_buffer` on a successfully parsed request: build the
default response, run the middleware, run the router, serialize. -/
def runPipeline (mw : List Handler) (router : Router) (sm : SessionManager)
    (req : Request) (freshId now : Nat) (date : Str) : List Nat :=
  match Response.new req sm 0 freshId now with
  | (response, session_id, sm) =>
    let ctx : Ctx := { request := req, response := response,
                       session_id := session_id, session_manager := sm }
    let ctx := Middleware.run mw ctx
    let ctx := Router.call router ctx
    ctx.response.serialize date

/-- Embedding of `Immortal::process_buffer`: parse failures of any kind
serialize `Response::bad` (code `400`). -/
def Server.process_buffer (imm : Server) (request_buffer : List Nat)
    (freshId now : Nat) (date : Str) : List Nat :=
  match Request.from_slice request_buffer with
  | .error _ => Response.bad.serialize date
  | .ok req =>
    runPipeline imm.middleware imm.router imm.session_manager req freshId now date

/-- Embedding of the response computation of `lib::handle_connection` (the
socket reads and writes are outside the model): `ProtoVersionInvalid` parse
failures get `Response::bad` with code `505`, other parse failures get
`Response::bad` unchanged, and parsed requests run the pipeline. -/
def handleConnection (sm : SessionManager) (mw : List Handler) (router : Router)
    (buf : List Nat) (freshId now : Nat) (date : Str) : List Nat :=
  match Request.new buf with
  | .error (.protoVersionInvalid _) =>
    ({ Response.bad with code := str "505" }).serialize date
  | .error _ => Response.bad.serialize date
  | .ok req => runPipeline mw router sm req freshId now date

/-! ## Claim C1 -/

/-- True exactly on the `ContentLengthDiscrepancy` parse outcome. -/
def isCLD : Except RequestError Request → Bool
  | .error (.contentLengthDiscrepancy _ _) => true
  | _ => false

/-- No branch of `Request::new` produces `ContentLengthDiscrepancy`. -/
theorem requestNew_ne_cld (buf : List Nat) (e g : Nat) :
    Request.new buf ≠ .error (.contentLengthDiscrepancy e g) := by
  intro h
  unfold Request.new at h
  repeat' split at h
  all_goals simp_all

/-- A request buffer declaring `Content-Length: 5` over a 2-byte body. -/
def c1buf : List Nat := bytes "GET / HTTP/1.1\r\nContent-Length: 5\r\n\r\nab"

/-- C1 counterexample: on a buffer whose declared `Content-Length` is 5 but
whose body has 2 bytes, `Request::new` succeeds (with the mismatched fields
visible on the parsed request) instead of failing with
`ContentLengthDiscrepancy`, refuting the claim that parsing succeeds only
when the body length equals the declared value. -/
theorem C1_counterexample :
    (Request.new c1buf).toOption.map
        (fun r => (r.body.map List.length, r.content_length))
      = some (some 2, some 5) := by decide

/-- C1 (amended): `Request::new` performs no validation of the declared
`Content-Length` against the body: no input buffer ever produces the
`ContentLengthDiscrepancy` error (and, per the counterexample, a successfully
parsed request may carry a body whose length differs from the parsed
`Content-Length`). -/
theorem C1_no_content_length_validation (buf : List Nat) :
    isCLD (Request.new buf) = false := by
  cases hr : Request.new buf with
  | ok r => rfl
  | error err =>
    cases err <;> first
      | rfl
      | exact absurd hr (requestNew_ne_cld buf _ _)

/-! ## Claim C2 -/

/-- The query-decoding scenario request buffer (spec scenario S2, also the
input of the repository test `test_request_with_query`). -/
def c2buf : List Nat :=
  bytes "GET /?param_one=val_one&param_two=val=two&param_three=val%20three HTTP/1.1"

/-- C2: query parameter values are returned raw, not percent-decoded.  On the
S2 request line the parsed request yields `val_one` and `val=two` as claimed,
but `param_three` evaluates to the undecoded `val%20three` rather than the
claimed `val three`: `util::parse_parameters` (via `KVParser::query_kv_pair`)
never percent-decodes values, contradicting the specification and the
repository's own test for this exact input. -/
theorem C2_query_values_not_percent_decoded :
    (Request.new c2buf).toOption.map (fun r =>
        (r.get (str "param_one"), r.get (str "param_two"),
          r.get (str "param_three")))
      = some (some (str "val_one"), some (str "val=two"),
          some (str "val%20three"))
    ∧ str "val%20three" ≠ str "val three" := by decide

/-! ## Claim C3 -/

/-- A request whose `Host` header appears in canonical case. -/
def c3bufUpper : List Nat := bytes "GET / HTTP/1.1\r\nHost: example"

/-- The same request with the header name in lower case. -/
def c3bufLower : List Nat := bytes "GET / HTTP/1.1\r\nhost: example"

/-- C3: header lookup is case-sensitive, not case-insensitive.  Two requests
identical up to the case of the header name (`Host:` versus `host:`) give
different results for the same lookup key `Host`: `Request::header` compares
the raw line's name byte-for-byte against the key, so the lower-case variant
is not found, refuting the claimed case-insensitivity. -/
theorem C3_header_lookup_case_sensitive :
    (Request.new c3bufUpper).toOption.map (fun r => r.header (str "Host"))
        = some (some (str "example"))
    ∧ (Request.new c3bufLower).toOption.map (fun r => r.header (str "Host"))
        = some none := by decide

/-! ## Claim C4 -/

/-- A session created and last accessed at time 0. -/
def c4sess0 : Session :=
  { data := [], created := 0, last_mutated := 0, last_accessed := 0 }

/-- A manager holding one long-expired session while the prune throttle is
still active at time 100 (`100 - last_prune = 10 < prune_rate = 50`). -/
def c4smThrottled : SessionManager :=
  { is_enabled := true, store := [(1, c4sess0)], session_duration := 10,
    inactive_duration := 10, prune_rate := 50, last_prune := 90 }

/-- C4 counterexample: `prune` is throttled by `prune_rate`, so a call that
returns while `now - last_prune < prune_rate` performs no sweep and a session
violating both TTL bounds remains in the store, refuting the claim that no
expired session remains whenever the prune operation returns. -/
theorem C4_counterexample :
    ¬ (∀ p ∈ (SessionManager.prune c4smThrottled 100).store,
        100 - p.2.created < c4smThrottled.session_duration ∧
        100 - p.2.last_accessed < c4smThrottled.inactive_duration) := by decide

/-- C4 (amended): prune soundness holds for the sweeps that actually run:
whenever `prune` is called with `now - last_prune ≥ prune_rate`, every
session still in the store after it returns satisfies
`now - created < session_duration` and
`now - last_accessed < inactive_duration`. -/
theorem C4_prune_sweep_soundness (sm : SessionManager) (now : Nat)
    (p : Nat × Session)
    (hrate : sm.prune_rate ≤ now - sm.last_prune)
    (hmem : p ∈ (SessionManager.prune sm now).store) :
    now - p.2.created < sm.session_duration ∧
    now - p.2.last_accessed < sm.inactive_duration := by
  unfold SessionManager.prune at hmem
  rw [if_neg (by omega)] at hmem
  simp only [List.mem_filter, pruneExpired, Bool.not_or, Bool.and_eq_true,
    Bool.not_eq_true', decide_eq_false_iff_not, not_le] at hmem
  exact ⟨hmem.2.2, hmem.2.1⟩

/-- A live session created at time 95. -/
def c4sess95 : Session :=
  { data := [], created := 95, last_mutated := 95, last_accessed := 95 }

/-- A manager due for a sweep at time 100. -/
def c4smSweep : SessionManager :=
  { is_enabled := true, store := [(1, c4sess95)], session_duration := 1000,
    inactive_duration := 1000, prune_rate := 50, last_prune := 0 }

/-- The surviving store entry of the witness sweep. -/
def c4p : Nat × Session := (1, c4sess95)

/-- C4 witness: the amended soundness theorem applied to a concrete sweep in
which one live session survives. -/
theorem C4_witness :
    100 - c4p.2.created < c4smSweep.session_duration ∧
    100 - c4p.2.last_accessed < c4smSweep.inactive_duration :=
  C4_prune_sweep_soundness c4smSweep 100 c4p (by decide) (by decide)

/-! ## Claim C5 -/

/-- Once the middleware pipeline has produced a redirect, appending further
handlers does not change the outcome: `Middleware::run` checks `is_redirect`
before each handler and stops. -/
theorem middlewareRun_append (l1 l2 : List Handler) (ctx : Ctx)
    (h : (Middleware.run l1 ctx).response.is_redirect = true) :
    Middleware.run (l1 ++ l2) ctx = Middleware.run l1 ctx := by
  induction l1 generalizing ctx with
  | nil =>
    cases l2 with
    | nil => rfl
    | cons f rest =>
      simp only [Middleware.run] at h ⊢
      simp [h]
  | cons f rest ih =>
    by_cases hr : ctx.response.is_redirect
    · simp [Middleware.run, hr]
    · simp only [List.cons_append, Middleware.run, hr, if_neg] at h ⊢
      simp only [Bool.false_eq_true, if_false] at h ⊢
      exact ih _ h

/-- C5 (confirmed): redirect short-circuit.  For every middleware sequence
`pre ++ h :: post`, if the response is a redirect once `h` has run, then the
handlers in `post` are never invoked (running the full sequence equals
stopping right after `h`), and `Router::call` returns the context unchanged —
neither a registered route handler nor the fallback runs. -/
theorem C5_redirect_short_circuit (pre post : List Handler) (h : Handler)
    (r : Router) (ctx : Ctx)
    (hred : (Middleware.run (pre ++ [h]) ctx).response.is_redirect = true) :
    Middleware.run (pre ++ h :: post) ctx = Middleware.run (pre ++ [h]) ctx
    ∧ Router.call r (Middleware.run (pre ++ h :: post) ctx)
        = Middleware.run (pre ++ h :: post) ctx := by
  have hsplit : pre ++ h :: post = (pre ++ [h]) ++ post := by simp
  have h1 : Middleware.run (pre ++ h :: post) ctx
      = Middleware.run (pre ++ [h]) ctx := by
    rw [hsplit]; exact middlewareRun_append _ _ _ hred
  refine ⟨h1, ?_⟩
  rw [h1]
  unfold Router.call
  simp [hred]

/-- A middleware handler that redirects to `/` via `Context::redirect`. -/
def c5h : Handler := fun c => c.redirect (str "/")

/-- A later handler that would overwrite the response code if it ran. -/
def c5g : Handler := fun c =>
  { c with response := { c.response with code := str "404" } }

/-- A concrete request context built from the fail-state values. -/
def c5ctx : Ctx :=
  { request := Request.bad, response := Response.bad, session_id := 0,
    session_manager := SessionManager.default }

/-- A router with a handler registered for `GET /`. -/
def c5router : Router :=
  (Router.new.register (str "GET") (str "/") c5g).1

/-- C5 witness: the short-circuit theorem applied to a concrete pipeline in
which the first middleware redirects. -/
theorem C5_witness :
    Middleware.run [c5h, c5g] c5ctx = Middleware.run [c5h] c5ctx
    ∧ Router.call c5router (Middleware.run [c5h, c5g] c5ctx)
        = Middleware.run [c5h, c5g] c5ctx :=
  C5_redirect_short_circuit [] [c5g] c5h c5router c5ctx (by decide)

/-! ## Claim C6 -/

/-- C6 (confirmed): nil-session neutrality.  For the nil (zero) session id,
every store operation is a no-op returning the neutral value:
`write_session` returns `false`, `read_session` returns `none`,
`session_exists` returns `false`, and `delete_session` leaves the manager
unchanged — whatever the manager state. -/
theorem C6_nil_session_neutrality (sm : SessionManager) (k v : Str)
    (now now2 : Nat) :
    SessionManager.write_session sm 0 k v now = (sm, false)
    ∧ SessionManager.read_session sm 0 k now2 = (sm, none)
    ∧ SessionManager.session_exists sm 0 = false
    ∧ SessionManager.delete_session sm 0 = sm := by
  unfold SessionManager.write_session SessionManager.read_session
    SessionManager.session_exists SessionManager.delete_session
  by_cases h : sm.is_enabled <;> simp [h]

/-! ## Claim C10 -/

/-- C10 (confirmed): session read-after-write round trip.  With sessions
enabled and a session stored under the non-nil id `s`: writing a non-empty
value returns `true` and an immediately following read returns the value;
writing the empty string removes the key, so an immediately following read
returns `none`. -/
theorem C10_session_round_trip (sm : SessionManager) (s : Nat) (k v : Str)
    (now now2 : Nat) (hen : sm.is_enabled = true) (hnil : s ≠ 0)
    (hex : (lookupA sm.store s).isSome = true) :
    ((v ≠ [] → (sm.write_session s k v now).2 = true
      ∧ ((sm.write_session s k v now).1.read_session s k now2).2 = some v)
    ∧ (v = [] →
      ((sm.write_session s k v now).1.read_session s k now2).2 = none)) := by
  cases hl : lookupA sm.store s with
  | none => rw [hl] at hex; simp at hex
  | some sess =>
    constructor
    · intro hv
      constructor
      · unfold SessionManager.write_session
        simp [hen, hnil, hl]
      · unfold SessionManager.write_session SessionManager.read_session
        simp [hen, hnil, hl, lookupA_insertA, hv]
    · intro hv
      unfold SessionManager.write_session SessionManager.read_session
      simp [hen, hnil, hl, lookupA_insertA, hv, lookupA_eraseA]

/-- An empty session for the C10 witness. -/
def c10sess : Session :=
  { data := [], created := 0, last_mutated := 0, last_accessed := 0 }

/-- An enabled manager holding the C10 witness session under id 1. -/
def c10sm : SessionManager :=
  { is_enabled := true, store := [(1, c10sess)], session_duration := 100,
    inactive_duration := 100, prune_rate := 10, last_prune := 0 }

/-- C10 witness: the round-trip theorem applied to a concrete enabled store,
for a non-empty write followed by a read and an empty (removing) write
followed by a read. -/
theorem C10_witness :
    ((c10sm.write_session 1 (str "testkey") (str "testvalue") 5).2 = true
      ∧ ((c10sm.write_session 1 (str "testkey") (str "testvalue") 5).1.read_session
          1 (str "testkey") 6).2 = some (str "testvalue"))
    ∧ ((c10sm.write_session 1 (str "testkey") [] 7).1.read_session
          1 (str "testkey") 8).2 = none :=
  ⟨(C10_session_round_trip c10sm 1 (str "testkey") (str "testvalue") 5 6 rfl
      (by decide) (by decide)).1 (by decide),
   (C10_session_round_trip c10sm 1 (str "testkey") [] 7 8 rfl (by decide)
      (by decide)).2 rfl⟩

/-! ## Claim C7 -/

/-- True exactly on the `ProtoVersionInvalid` parse outcome. -/
def isPviError : Except RequestError Request → Bool
  | .error (.protoVersionInvalid _) => true
  | _ => false

/-- A request buffer whose parse fails with `ProtoVersionInvalid`. -/
def c7buf : List Nat := bytes "GET / HTTP/1.0"

/-- C7 counterexample: for the buffer `GET / HTTP/1.0`, whose parse failure
is the `ProtoVersionInvalid` variant, `process_buffer` responds `400 BAD
REQUEST` — not the claimed `505` — and the response carries an empty body
(`Content-Length: 0`, no bytes after the terminator), not the claimed HTML
error body. -/
theorem C7_counterexample :
    isPviError (Request.new c7buf) = true
    ∧ Server.new.process_buffer c7buf 0 0 (str "DATE")
      = bytes "HTTP/1.1 400 BAD REQUEST\r\nDate: DATE\r\nContent-Type: text/html\r\nConnection: close\r\nContent-Length: 0\r\n\r\n" := by
  decide

/-- C7 (amended): every parse failure is answered with the canned
`Response::bad` value: `process_buffer` serializes it unchanged (code `400`)
for every parse error including `ProtoVersionInvalid`, the socket path
serializes it with code `505` for `ProtoVersionInvalid` and unchanged
otherwise, and `Response::bad` carries no cookies and an empty body (so the
serialized response has no `Set-Cookie` header and no HTML body). -/
theorem C7_parse_failure_response (buf : List Nat) (e : RequestError)
    (imm : Server) (sm : SessionManager) (mw : List Handler) (router : Router)
    (freshId now : Nat) (date : Str)
    (h : Request.new buf = .error e) :
    imm.process_buffer buf freshId now date = Response.bad.serialize date
    ∧ handleConnection sm mw router buf freshId now date
        = (match e with
           | .protoVersionInvalid _ => { Response.bad with code := str "505" }
           | _ => Response.bad).serialize date
    ∧ Response.bad.cookies = [] ∧ Response.bad.body = [] := by
  refine ⟨?_, ?_, rfl, rfl⟩
  · unfold Server.process_buffer Request.from_slice
    rw [h]
  · unfold handleConnection
    rw [h]
    cases e <;> rfl

/-- C7 witness: the amended theorem applied to the concrete
`ProtoVersionInvalid` buffer on a fresh server. -/
theorem C7_witness :
    Server.new.process_buffer c7buf 0 0 (str "DATE")
        = Response.bad.serialize (str "DATE")
    ∧ handleConnection SessionManager.default [] Router.new c7buf 0 0 (str "DATE")
        = ({ Response.bad with code := str "505" }).serialize (str "DATE")
    ∧ Response.bad.cookies = [] ∧ Response.bad.body = [] :=
  C7_parse_failure_response c7buf (.protoVersionInvalid (bytes "GET / HTTP/1.0"))
    Server.new SessionManager.default [] Router.new 0 0 (str "DATE") (by rfl)

/-! ## Claim C8 -/

/-- Status resolution never changes the echoed request method. -/
theorem resolve_method (r : Response) : (Response.resolve r).method = r.method := by
  unfold Response.resolve
  repeat' split <;> rfl

/-- C8 (confirmed): HEAD suppression.  For every response and date stamp, a
`HEAD` response serializes to a byte sequence ending exactly with
`Content-Length: 0` and the header terminator — no body bytes follow — while
a non-`HEAD` response serializes to the header section followed by
`Content-Length: <body.len>`, the terminator, and exactly the body bytes (of
the response as resolved by the status-promotion step). -/
theorem C8_head_suppression (r : Response) (date : Str) :
    (r.method = str "HEAD" →
      ∃ pre, r.serialize date = pre ++ bytes "Content-Length: 0\r\n\r\n")
    ∧ (r.method ≠ str "HEAD" →
      ∃ pre, r.serialize date
        = pre ++ clBytes (Response.resolve r).body.length
            ++ (Response.resolve r).body) := by
  constructor
  · intro hm
    refine ⟨serializeHeaders r.resolve date, ?_⟩
    unfold Response.serialize
    have ht : serializeTail r.resolve = bytes "Content-Length: 0\r\n\r\n" := by
      unfold serializeTail
      rw [if_neg]
      simp [resolve_method, hm]
    rw [ht]
  · intro hm
    refine ⟨serializeHeaders r.resolve date, ?_⟩
    unfold Response.serialize
    have ht : serializeTail r.resolve
        = clBytes r.resolve.body.length ++ r.resolve.body := by
      unfold serializeTail
      rw [if_pos]
      rw [resolve_method]
      exact hm
    rw [ht, List.append_assoc]

/-- A `HEAD` response carrying a body that must be suppressed. -/
def c8head : Response :=
  { Response.bad with method := str "HEAD", body := bytes "hello" }

/-- A non-`HEAD` response carrying a body. -/
def c8get : Response := { Response.bad with body := bytes "hello" }

/-- C8 witness: the suppression theorem applied to a concrete `HEAD`
response and a concrete `GET` response. -/
theorem C8_witness :
    (∃ pre, c8head.serialize (str "D")
        = pre ++ bytes "Content-Length: 0\r\n\r\n")
    ∧ (∃ pre, c8get.serialize (str "D")
        = pre ++ clBytes (Response.resolve c8get).body.length
            ++ (Response.resolve c8get).body) :=
  ⟨(C8_head_suppression c8head (str "D")).1 rfl,
   (C8_head_suppression c8get (str "D")).2 (by decide)⟩

/-! ## Claim C9 -/

/-- C9 (confirmed): registration always succeeds.  For every router state —
including one that already maps `(method, route)` — `Router::register`
returns `true` and afterwards the route table maps `(method, route)` to the
new handler (silently replacing any previous one); `Immortal::register`
forwards the router's boolean result unchanged. -/
theorem C9_register_always_true (r : Router) (imm : Server) (m p : Str)
    (f : Handler) :
    (r.register m p f).2 = true
    ∧ (r.register m p f).1.lookupRoute m p = some f
    ∧ (Server.register imm m p f).2 = (imm.router.register m p f).2 := by
  have hreg : ∀ (r' : Router), (r'.register m p f).2 = true
      ∧ (r'.register m p f).1.lookupRoute m p = some f := by
    intro r'
    unfold Router.register Router.lookupRoute
    by_cases hc : (lookupA r'.routes m).isSome
    · obtain ⟨inner, hi⟩ := Option.isSome_iff_exists.mp hc
      simp [hc, hi, lookupA_insertA]
    · simp [hc, lookupA_insertA]
  refine ⟨(hreg r).1, (hreg r).2, ?_⟩
  unfold Server.register
  rcases h : imm.router.register m p f with ⟨router, ok⟩
  simp [h]

end Immortal
